import Mathlib

/-
Shallow embedding of `src/univariate_analysis.py` (a pandas/matplotlib helper
module for univariate exploratory analysis) together with theorems settling
the specification claims about it.

Modelling conventions:
* A dataframe cell is `Option Int`; `none` is a missing value (null/NaN).
  Only nullness of cells matters to the functions under study.
* pandas float results are modelled as exact rationals (`ℚ`): every number
  the summarizers produce is a count or a count divided by a length.
* pyplot's implicit global state (current figure / current axes) is made
  explicit in a `PlotState` record, and Python exceptions are modelled with
  `Except`.
-/

namespace UA

instance {ε α : Type} [DecidableEq ε] [DecidableEq α] : DecidableEq (Except ε α) :=
  fun a b =>
    match a, b with
    | Except.ok x, Except.ok y =>
      match decEq x y with
      | isTrue h => isTrue (by rw [h])
      | isFalse h => isFalse (by intro hh; cases hh; exact h rfl)
    | Except.error x, Except.error y =>
      match decEq x y with
      | isTrue h => isTrue (by rw [h])
      | isFalse h => isFalse (by intro hh; cases hh; exact h rfl)
    | Except.ok _, Except.error _ => isFalse (by intro hh; cases hh)
    | Except.error _, Except.ok _ => isFalse (by intro hh; cases hh)

/-- A dataframe cell: `none` represents a missing value (null/NaN). -/
abbrev Cell := Option Int

/-- A pandas dataframe: an ordered list of named columns, each a list of
cells.  `Wf` states the pandas invariant that all columns share one length. -/
structure DataFrame where
  cols : List (String × List Cell)
deriving DecidableEq

/-- Number of rows: the (shared) length of the columns; `len(df)`. -/
def DataFrame.numRows (df : DataFrame) : Nat :=
  match df.cols with
  | [] => 0
  | c :: _ => c.2.length

/-- Well-formedness: every column has the shared row count (pandas enforces
this at construction time, so the source functions only ever see such
frames). -/
def DataFrame.Wf (df : DataFrame) : Prop :=
  ∀ c ∈ df.cols, c.2.length = df.numRows

instance (df : DataFrame) : Decidable df.Wf :=
  List.decidableBAll _ df.cols

/-- Count of missing values in one column: `df[col].isnull().sum()`. -/
def colNullCount (col : List Cell) : Nat :=
  col.countP (fun v => v.isNone)

/-- Count of missing values in row `i` across all columns:
one row of `df.isnull().sum(axis = 1)`. -/
def DataFrame.rowNullCount (df : DataFrame) (i : Nat) : Nat :=
  df.cols.countP (fun c => decide (c.2.get? i = some none))

/-- A pandas `Series`: a name plus ordered (label, value) pairs.  Values are
rationals (see the conventions above). -/
structure NamedSeries (ι : Type) where
  name : String
  entries : List (ι × ℚ)
deriving DecidableEq

/-- A pandas `DataFrame` produced by `pd.concat(..., axis = 1)`: an index
(row labels) plus named value columns. -/
structure ConcatFrame (ι : Type) where
  index : List ι
  columns : List (String × List ℚ)
deriving DecidableEq

/-- `pd.concat([s1, s2], axis = 1)` for two series over the same index (the
only shape that occurs in this module: both series are aggregations of one
frame, so their indices coincide and no alignment/reindexing happens). -/
def concatAxis1 {ι : Type} (s1 s2 : NamedSeries ι) : ConcatFrame ι :=
  { index := s1.entries.map Prod.fst
    columns := [(s1.name, s1.entries.map Prod.snd),
                (s2.name, s2.entries.map Prod.snd)] }

/-- `df.isnull().sum().rename('rows_missing')` (line 178): per column, the
missing-value count, keyed by column name, in column order. -/
def isnull_sum (df : DataFrame) : NamedSeries String :=
  { name := "rows_missing"
    entries := df.cols.map (fun c => (c.1, (colNullCount c.2 : ℚ))) }

/-- `df.isnull().mean().rename('percent_missing')` (line 179): per column,
the fraction of missing values.  pandas divides each boolean column's sum by
that column's own length; the division is written `mkRat` (equal to `/` on
`ℚ`, see `mkRat_eq_cast_div`) so that it evaluates by kernel reduction.
Caveat: on a zero-row column pandas' mean is NaN (mean of an empty slice),
which this `ℚ`-valued model identifies with the junk value `mkRat 0 0 = 0`
(the same junk as `0 / 0` in `ℚ`); `summarize_column_nulls_nan` below is the
refinement that keeps the NaN case distinct, and
`summarize_column_nulls_nan_nonempty` shows the two agree on every column
with at least one row. -/
def isnull_mean (df : DataFrame) : NamedSeries String :=
  { name := "percent_missing"
    entries := df.cols.map
      (fun c => (c.1, mkRat (colNullCount c.2) c.2.length)) }

/-- `summarize_column_nulls` (lines 161-180). -/
def summarize_column_nulls (df : DataFrame) : ConcatFrame String :=
  concatAxis1 (isnull_sum df) (isnull_mean df)

/-- The rows of `summarize_column_nulls` with pandas' NaN semantics of
`mean()` made explicit: per column, its name, its missing-value count
(`isnull().sum()`, line 178) and its missing fraction (`isnull().mean()`,
line 179), where the mean of a zero-row column is NaN — modelled `none` —
because pandas computes the mean of an empty boolean slice.  This is the
faithful reading of the program at zero-row columns, which the `ℚ`-valued
pipeline above cannot distinguish from 0. -/
def summarize_column_nulls_nan (df : DataFrame) : List (String × Nat × Option ℚ) :=
  df.cols.map (fun c => (c.1, colNullCount c.2,
    if c.2.length = 0 then none else some (mkRat (colNullCount c.2) c.2.length)))

/-- `df.isnull().sum(axis = 1).rename('columns_missing')` (line 201): per
row position, the missing-value count in that row. -/
def isnull_sum_axis1 (df : DataFrame) : NamedSeries Nat :=
  { name := "columns_missing"
    entries := (List.range df.numRows).map
      (fun i => (i, (df.rowNullCount i : ℚ))) }

/-- `df.isnull().mean(axis = 1).rename('percent_missing')` (line 202): per
row position, the missing count divided by the number of columns. -/
def isnull_mean_axis1 (df : DataFrame) : NamedSeries Nat :=
  { name := "percent_missing"
    entries := (List.range df.numRows).map
      (fun i => (i, mkRat (df.rowNullCount i) df.cols.length)) }

/-- The rows of a two-column concat frame as (first, second) value pairs;
`DataFrame.value_counts` groups by exactly these tuples.  The frames this is
applied to always have exactly two columns. -/
def ConcatFrame.rows2 {ι : Type} (f : ConcatFrame ι) : List (ℚ × ℚ) :=
  match f.columns with
  | [a, b] => a.2.zip b.2
  | _ => []

/-- The result of `DataFrame.value_counts()` then `sort_index()`: a pandas
`Series` of group sizes whose (multi-)index levels are named after the
grouped frame's columns.  It is one-dimensional: a single value sequence,
not named value columns. -/
structure CountSeries where
  indexNames : List String
  name : String
  entries : List ((ℚ × ℚ) × Nat)
deriving DecidableEq

/-- Descending-count comparison used by `value_counts`' default sort. -/
def cntGe (e1 e2 : (ℚ × ℚ) × Nat) : Prop := e2.2 ≤ e1.2

instance : DecidableRel cntGe := fun e1 e2 =>
  inferInstanceAs (Decidable (e2.2 ≤ e1.2))

/-- Ascending lexicographic order on (count, fraction) index keys. -/
def keyLe (p q : ℚ × ℚ) : Prop := p.1 < q.1 ∨ (p.1 = q.1 ∧ p.2 ≤ q.2)

instance : DecidableRel keyLe := fun p q =>
  inferInstanceAs (Decidable (p.1 < q.1 ∨ (p.1 = q.1 ∧ p.2 ≤ q.2)))

/-- `keyLe` lifted to series entries (compare by index key). -/
def entryLe (e1 e2 : (ℚ × ℚ) × Nat) : Prop := keyLe e1.1 e2.1

instance : DecidableRel entryLe := fun e1 e2 =>
  inferInstanceAs (Decidable (keyLe e1.1 e2.1))

/-- `DataFrame.value_counts()` on a two-column frame: one entry per distinct
row tuple holding the number of rows equal to it, sorted (by default) by
descending count.  No row tuple contains NaN here (values are exact
rationals), so the default `dropna` drops nothing. -/
def value_counts {ι : Type} (f : ConcatFrame ι) : CountSeries :=
  { indexNames := f.columns.map Prod.fst
    name := "count"
    entries := List.insertionSort cntGe
      (f.rows2.dedup.map (fun k => (k, f.rows2.count k))) }

/-- `Series.sort_index()`: reorder the entries ascending by index key.  The
keys are pairwise distinct (they come from `dedup`), so the result order is
uniquely determined. -/
def sort_index (s : CountSeries) : CountSeries :=
  { s with entries := List.insertionSort entryLe s.entries }

/-- `summarize_row_nulls` (lines 184-203). -/
def summarize_row_nulls (df : DataFrame) : CountSeries :=
  sort_index (value_counts (concatAxis1 (isnull_sum_axis1 df) (isnull_mean_axis1 df)))

/-- Look up a value column of a concat frame by name (`frame[name]`). -/
def ConcatFrame.col? {ι : Type} (f : ConcatFrame ι) (name : String) : Option (List ℚ) :=
  (f.columns.find? (fun c => c.1 == name)).map Prod.snd

/-- The value columns an object presents through the dataframe interface:
a one-dimensional series presents a single value sequence (pandas names the
`value_counts` result `count`), never one column per index level. -/
def CountSeries.valueColumnNames (s : CountSeries) : List String :=
  [s.name]

/-- Python exceptions raised by the libraries this module calls into. -/
inductive PyError where
  | keyError
  | typeError
  | indexError
  | valueError
deriving DecidableEq

/-- `df[column]`: column access by name; an absent name raises `KeyError`.
Duplicate column labels never arise in this module's inputs of interest; the
first match is taken. -/
def DataFrame.getCol (df : DataFrame) (name : String) : Except PyError (List Cell) :=
  match df.cols.find? (fun c => c.1 == name) with
  | some c => Except.ok c.2
  | none => Except.error PyError.keyError

/-- The data of column `name`, defaulting to `[]` when absent (used only to
phrase results; `getCol` decides presence). -/
def DataFrame.colD (df : DataFrame) (name : String) : List Cell :=
  match df.cols.find? (fun c => c.1 == name) with
  | some c => c.2
  | none => []

/-- A drawing placed on an axes cell. -/
inductive Plot where
  | hist (data : List Cell) (bins : Nat)
  | box (data : List Cell)
deriving DecidableEq

/-- The observable state of one matplotlib `Axes`, restricted to what this
module sets.  `none` means the library default was never overridden. -/
structure Axes where
  plots : List Plot := []
  title : String := ""
  labelrotation : Option Nat := none
  useOffset : Option Bool := none
  gridOn : Option Bool := none
deriving DecidableEq

/-- A matplotlib figure (only its size is observable here). -/
structure Figure where
  width : Nat
  height : Nat
deriving DecidableEq

/-- The axes object returned by `plt.subplots(nrows, ncols)` (with the
default `squeeze=True`): the `nrows * ncols` axes in row-major order plus the
grid shape.  Whether the object is a 2-D array or was squeezed to 1-D is
determined by the shape (see `index2`). -/
structure AxesArray where
  nrows : Nat
  ncols : Nat
  cells : List Axes
deriving DecidableEq

/-- Evaluate the two-level subscript `ax[r][c]` to a row-major flat cell
index.  With the default `squeeze=True` and `ncols > 1` (the only shape this
module creates: `ncols = 3`), `nrows = 1` yields a 1-D array of `ncols`
axes: `ax[r]` is then an `Axes` for `r < ncols`, and subscripting an `Axes`
raises `TypeError`. -/
def AxesArray.index2 (a : AxesArray) (r c : Nat) : Except PyError Nat :=
  if a.nrows = 1 then
    if r < a.ncols then Except.error PyError.typeError
    else Except.error PyError.indexError
  else
    if r < a.nrows then
      if c < a.ncols then Except.ok (r * a.ncols + c)
      else Except.error PyError.indexError
    else Except.error PyError.indexError

/-- The claim-level reading of "an addressable 2-D array with `nrows` rows
and `ncols` columns": every two-level subscript within the shape succeeds. -/
def AxesArray.twoDAddressable (a : AxesArray) : Prop :=
  ∀ r < a.nrows, ∀ c < a.ncols, (a.index2 r c).isOk = true

instance (a : AxesArray) : Decidable a.twoDAddressable :=
  Nat.decidableBallLT _ _

/-- Overwrite cell `i` (row-major flat index) with `f` of its old value. -/
def AxesArray.modifyCell (a : AxesArray) (i : Nat) (f : Axes → Axes) : AxesArray :=
  { a with cells := a.cells.set i (f (a.cells.getD i {})) }

/-- `plt.subplots(nrows, ncols, figsize)`: a fresh figure and a fresh axes
array whose cells are all in the default state. -/
def subplots (nrows ncols width height : Nat) : Figure × AxesArray :=
  ({ width := width, height := height },
   { nrows := nrows, ncols := ncols,
     cells := List.replicate (nrows * ncols) {} })

/-- `_create_sub_plots` (lines 110-133). -/
def _create_sub_plots (num_features : Nat) : Figure × AxesArray :=
  let figure_width := 14
  let figure_height := ((num_features / 3) + 1) * 3
  let num_rows := num_features / 3 + 1
  let num_columns := 3
  subplots num_rows num_columns figure_width figure_height

/-- The pyplot-level state threaded through a renderer call: the figure, the
axes array, and the flat index of pyplot's current axes (`plt.gca()`), which
after `plt.subplots` is the most recently created — i.e. last — cell.
Neither seaborn calls with an explicit `ax=` nor `plt.title` and friends
change which axes is current, so `current` is only ever read here. -/
structure PlotState where
  fig : Figure
  ax : AxesArray
  current : Nat
deriving DecidableEq

/-- Overwrite axes cell `i` of the state. -/
def PlotState.modifyCell (st : PlotState) (i : Nat) (f : Axes → Axes) : PlotState :=
  { st with ax := st.ax.modifyCell i f }

/-- Read axes cell `i` of the state. -/
def PlotState.cell (st : PlotState) (i : Nat) : Axes :=
  st.ax.cells.getD i {}

/-- One iteration of the `get_hist` loop (lines 47-64), in Python evaluation
order: evaluate `df[column]` (may raise `KeyError`), evaluate the cell
subscript `ax[index // 3][index % 3]` (raises `TypeError` on a squeezed 1-D
array), draw the 5-bin histogram into that cell, rotate that cell's tick
labels, then retitle and reconfigure pyplot's CURRENT axes (`plt.title`,
`plt.ticklabel_format`, `plt.grid` all act on `plt.gca()`, not on the cell
just drawn into; `plt.tight_layout` has no observable state here). -/
def histStep (df : DataFrame) (st : PlotState) (i : Nat) (column : String) :
    Except PyError PlotState := do
  let data ← df.getCol column
  let j ← st.ax.index2 (i / 3) (i % 3)
  let st1 := st.modifyCell j (fun a => { a with plots := a.plots ++ [Plot.hist data 5] })
  let st2 := st1.modifyCell j (fun a => { a with labelrotation := some 30 })
  let st3 := st2.modifyCell st2.current (fun a => { a with title := column })
  let st4 := st3.modifyCell st3.current (fun a => { a with useOffset := some false })
  let st5 := st4.modifyCell st4.current (fun a => { a with gridOn := some false })
  pure st5

/-- One iteration of the `get_box` loop (lines 87-104).  Python evaluates
the keyword arguments of `sns.boxplot(data = df, x = column, ax = ...)`
first, so the cell subscript raises before seaborn can reject an unknown
column name (which it reports as a `ValueError`). -/
def boxStep (df : DataFrame) (st : PlotState) (i : Nat) (column : String) :
    Except PyError PlotState := do
  let j ← st.ax.index2 (i / 3) (i % 3)
  let data ← match df.getCol column with
    | Except.ok d => pure d
    | Except.error _ => Except.error PyError.valueError
  let st1 := st.modifyCell j (fun a => { a with plots := a.plots ++ [Plot.box data] })
  let st2 := st1.modifyCell j (fun a => { a with labelrotation := some 30 })
  let st3 := st2.modifyCell st2.current (fun a => { a with title := column })
  let st4 := st3.modifyCell st3.current (fun a => { a with useOffset := some false })
  let st5 := st4.modifyCell st4.current (fun a => { a with gridOn := some false })
  pure st5

/-- The state transformation of one successful renderer iteration drawing
`p` into flat cell `j`: both `histStep` and `boxStep` reduce to this when no
exception is raised (see `histStep_ok` and `boxStep_ok`). -/
def updateCells (st : PlotState) (j : Nat) (column : String) (p : Plot) : PlotState :=
  ((((st.modifyCell j
    (fun a => { a with plots := a.plots ++ [p] })).modifyCell j
    (fun a => { a with labelrotation := some 30 })).modifyCell st.current
    (fun a => { a with title := column })).modifyCell st.current
    (fun a => { a with useOffset := some false })).modifyCell st.current
    (fun a => { a with gridOn := some false })

/-- `for index, column in enumerate(columns): ...` starting at `index = i`. -/
def runSteps (step : PlotState → Nat → String → Except PyError PlotState) :
    PlotState → Nat → List String → Except PyError PlotState
  | st, _, [] => pure st
  | st, i, c :: cs => do runSteps step (← step st i c) (i + 1) cs

/-- `get_hist` (lines 30-66).  The Python function returns `None`; the model
returns the final pyplot state (the figure contents at `plt.show()` time) so
the rendering side effects are observable, or the raised exception. -/
def get_hist (df : DataFrame) (columns : List String) : Except PyError PlotState :=
  let fa := _create_sub_plots columns.length
  runSteps (histStep df)
    { fig := fa.1, ax := fa.2, current := fa.2.nrows * fa.2.ncols - 1 } 0 columns

/-- `get_box` (lines 70-106), modelled like `get_hist`. -/
def get_box (df : DataFrame) (columns : List String) : Except PyError PlotState :=
  let fa := _create_sub_plots columns.length
  runSteps (boxStep df)
    { fig := fa.1, ax := fa.2, current := fa.2.nrows * fa.2.ncols - 1 } 0 columns

/-- Concrete frame from the specification example: columns `A`, `B`, `C`
with 5 rows, where `A` has 2 missing values. -/
def exDf : DataFrame :=
  ⟨[("A", [none, none, some 1, some 2, some 3]),
    ("B", [some 1, some 2, some 3, some 4, some 5]),
    ("C", [some 6, some 7, some 8, some 9, some 10])]⟩

/-- Concrete frame from the specification example for the row summarizer:
4 rows and 2 columns, rows 0 and 1 each missing exactly one value. -/
def exDf4 : DataFrame :=
  ⟨[("X", [none, none, some 1, some 2]),
    ("Y", [some 1, some 2, some 3, some 4])]⟩

/-- Concrete frame with no missing value anywhere. -/
def exDfFull : DataFrame :=
  ⟨[("A", [some 1, some 2]), ("B", [some 3, some 4])]⟩

/-- Concrete frame with one named column and zero rows, the pandas
`pd.DataFrame` built from an empty column: its missing count is 0 but its
missing fraction is the mean of an empty slice, i.e. NaN. -/
def exDfEmpty : DataFrame :=
  ⟨[("A", [])]⟩

/-! ## Helper lemmas -/

/-- `mkRat` over naturals is exactly the rational division the specification
speaks about. -/
theorem mkRat_eq_cast_div (n d : Nat) : mkRat n d = (n : ℚ) / (d : ℚ) := by
  rw [Rat.mkRat_eq_divInt, Rat.divInt_eq_div]
  norm_num

theorem getD_set_self {α : Type} (l : List α) (n : Nat) (a d : α) (h : n < l.length) :
    (l.set n a).getD n d = a := by
  induction l generalizing n with
  | nil => simp at h
  | cons x t ih =>
    cases n with
    | zero => simp [List.getD]
    | succ m => simpa [List.getD] using ih m (by simpa using h)

theorem getD_set_ne {α : Type} (l : List α) (m n : Nat) (a d : α) (h : m ≠ n) :
    (l.set m a).getD n d = l.getD n d := by
  induction l generalizing m n with
  | nil => simp
  | cons x t ih =>
    cases m with
    | zero =>
      cases n with
      | zero => exact absurd rfl h
      | succ k => simp [List.getD]
    | succ m' =>
      cases n with
      | zero => simp [List.getD]
      | succ k => simpa [List.getD] using ih m' k (by omega)

theorem getD_replicate {α : Type} (k n : Nat) (a d : α) (h : n < k) :
    (List.replicate k a).getD n d = a := by
  induction k generalizing n with
  | zero => omega
  | succ m ih =>
    cases n with
    | zero => simp [List.getD]
    | succ j => simpa [List.replicate, List.getD] using ih j (by omega)

/-- A list of pairs whose second components are a function of the first is
the key list paired with that function. -/
theorem eq_key_map {α β : Type} (l : List (α × β)) (g : α → β)
    (h : ∀ e ∈ l, e.2 = g e.1) :
    l = (l.map Prod.fst).map (fun k => (k, g k)) := by
  induction l with
  | nil => rfl
  | cons e t ih =>
    have he : e = (e.1, g e.1) := by
      have := h e (List.mem_cons_self e t)
      exact Prod.ext rfl this
    have ht : t = (t.map Prod.fst).map (fun k => (k, g k)) :=
      ih (fun x hx => h x (List.mem_cons_of_mem e hx))
    calc e :: t = (e.1, g e.1) :: t := by rw [← he]
    _ = ((e :: t).map Prod.fst).map (fun k => (k, g k)) := by
        simp only [List.map_cons]
        rw [← ht]

/-- Zipping a list with its image under a map pairs each element with its
image. -/
theorem zip_self_map {α β : Type} (l : List α) (f : α → β) :
    l.zip (l.map f) = l.map (fun a => (a, f a)) := by
  induction l with
  | nil => rfl
  | cons x t ih => simp [ih]

instance : IsTotal ((ℚ × ℚ) × Nat) entryLe where
  total e1 e2 := by
    unfold entryLe keyLe
    rcases lt_trichotomy e1.1.1 e2.1.1 with h | h | h
    · exact Or.inl (Or.inl h)
    · rcases le_total e1.1.2 e2.1.2 with h2 | h2
      · exact Or.inl (Or.inr ⟨h, h2⟩)
      · exact Or.inr (Or.inr ⟨h.symm, h2⟩)
    · exact Or.inr (Or.inl h)

instance : IsTrans ((ℚ × ℚ) × Nat) entryLe where
  trans e1 e2 e3 h12 h23 := by
    unfold entryLe keyLe at h12 h23 ⊢
    rcases h12 with h12 | ⟨h12a, h12b⟩
    · rcases h23 with h23 | ⟨h23a, h23b⟩
      · exact Or.inl (lt_trans h12 h23)
      · exact Or.inl (h23a ▸ h12)
    · rcases h23 with h23 | ⟨h23a, h23b⟩
      · exact Or.inl (h12a ▸ h23)
      · exact Or.inr ⟨h12a.trans h23a, le_trans h12b h23b⟩

theorem cell_modifyCell_self (st : PlotState) (i : Nat) (f : Axes → Axes)
    (h : i < st.ax.cells.length) :
    (st.modifyCell i f).cell i = f (st.cell i) := by
  unfold PlotState.modifyCell AxesArray.modifyCell PlotState.cell
  exact getD_set_self _ _ _ _ h

theorem cell_modifyCell_ne (st : PlotState) (i : Nat) (f : Axes → Axes) (k : Nat)
    (h : i ≠ k) :
    (st.modifyCell i f).cell k = st.cell k := by
  unfold PlotState.modifyCell AxesArray.modifyCell PlotState.cell
  exact getD_set_ne _ _ _ _ _ h

theorem modifyCell_len (st : PlotState) (i : Nat) (f : Axes → Axes) :
    (st.modifyCell i f).ax.cells.length = st.ax.cells.length := by
  unfold PlotState.modifyCell AxesArray.modifyCell
  exact List.length_set _ _ _

theorem updateCells_len (st : PlotState) (j : Nat) (c : String) (p : Plot) :
    (updateCells st j c p).ax.cells.length = st.ax.cells.length := by
  unfold updateCells
  rw [modifyCell_len, modifyCell_len, modifyCell_len, modifyCell_len, modifyCell_len]

/-- The drawn-into cell after a successful iteration: the plot is appended
and the tick labels rotated; nothing else of that cell changes. -/
theorem updateCells_cell_drawn (st : PlotState) (j : Nat) (c : String) (p : Plot)
    (hj : j < st.ax.cells.length) (hne : j ≠ st.current) :
    (updateCells st j c p).cell j =
      { st.cell j with plots := (st.cell j).plots ++ [p],
                       labelrotation := some 30 } := by
  unfold updateCells
  rw [cell_modifyCell_ne _ _ _ _ (Ne.symm hne), cell_modifyCell_ne _ _ _ _ (Ne.symm hne),
    cell_modifyCell_ne _ _ _ _ (Ne.symm hne),
    cell_modifyCell_self _ _ _ (by rw [modifyCell_len]; exact hj),
    cell_modifyCell_self _ _ _ hj]

/-- The current axes after a successful iteration: title, offset notation
and grid are overwritten; plots and rotation of that cell are untouched. -/
theorem updateCells_cell_current (st : PlotState) (j : Nat) (c : String) (p : Plot)
    (hcur : st.current < st.ax.cells.length) (hne : j ≠ st.current) :
    (updateCells st j c p).cell st.current =
      { st.cell st.current with title := c, useOffset := some false,
                                gridOn := some false } := by
  unfold updateCells
  rw [cell_modifyCell_self _ _ _
      (by rw [modifyCell_len, modifyCell_len, modifyCell_len, modifyCell_len]; exact hcur),
    cell_modifyCell_self _ _ _
      (by rw [modifyCell_len, modifyCell_len, modifyCell_len]; exact hcur),
    cell_modifyCell_self _ _ _
      (by rw [modifyCell_len, modifyCell_len]; exact hcur),
    cell_modifyCell_ne _ _ _ _ hne, cell_modifyCell_ne _ _ _ _ hne]

/-- Any other cell is untouched by a successful iteration. -/
theorem updateCells_cell_other (st : PlotState) (j : Nat) (c : String) (p : Plot)
    (k : Nat) (h1 : k ≠ j) (h2 : k ≠ st.current) :
    (updateCells st j c p).cell k = st.cell k := by
  unfold updateCells
  rw [cell_modifyCell_ne _ _ _ _ (Ne.symm h2), cell_modifyCell_ne _ _ _ _ (Ne.symm h2),
    cell_modifyCell_ne _ _ _ _ (Ne.symm h2), cell_modifyCell_ne _ _ _ _ (Ne.symm h1),
    cell_modifyCell_ne _ _ _ _ (Ne.symm h1)]

theorem getCol_ok_colD (df : DataFrame) (c : String) (d : List Cell)
    (h : df.getCol c = Except.ok d) : df.colD c = d := by
  unfold DataFrame.getCol at h
  unfold DataFrame.colD
  rcases hf : df.cols.find? (fun x => x.1 == c) with _ | x
  · rw [hf] at h
    exact absurd h (by simp)
  · rw [hf] at h
    rw [hf]
    cases h
    rfl

/-- A valid two-level subscript on an unsqueezed grid with 3 columns
resolves to the flat index `i` when addressed as `(i / 3, i % 3)`. -/
theorem index2_ok (a : AxesArray) (i : Nat) (h1 : a.nrows ≠ 1)
    (h2 : i / 3 < a.nrows) (h3 : a.ncols = 3) :
    a.index2 (i / 3) (i % 3) = Except.ok i := by
  unfold AxesArray.index2
  rw [if_neg h1, if_pos h2, if_pos (by rw [h3]; omega)]
  have : i / 3 * a.ncols + i % 3 = i := by rw [h3]; omega
  rw [this]

/-- A successful `get_hist` iteration is exactly `updateCells` with the
5-bin histogram of the looked-up column. -/
theorem histStep_ok (df : DataFrame) (st : PlotState) (i : Nat) (c : String)
    (h1 : st.ax.nrows ≠ 1) (h2 : i / 3 < st.ax.nrows) (h3 : st.ax.ncols = 3)
    (h4 : (df.getCol c).isOk = true) :
    histStep df st i c = Except.ok (updateCells st i c (Plot.hist (df.colD c) 5)) := by
  rcases hcol : df.getCol c with e | d
  · rw [hcol] at h4
    simp [Except.isOk, Except.toBool] at h4
  · rw [getCol_ok_colD df c d hcol]
    unfold histStep
    rw [hcol, index2_ok st.ax i h1 h2 h3]
    rfl

/-- A successful `get_box` iteration is exactly `updateCells` with the
boxplot of the looked-up column. -/
theorem boxStep_ok (df : DataFrame) (st : PlotState) (i : Nat) (c : String)
    (h1 : st.ax.nrows ≠ 1) (h2 : i / 3 < st.ax.nrows) (h3 : st.ax.ncols = 3)
    (h4 : (df.getCol c).isOk = true) :
    boxStep df st i c = Except.ok (updateCells st i c (Plot.box (df.colD c))) := by
  rcases hcol : df.getCol c with e | d
  · rw [hcol] at h4
    simp [Except.isOk, Except.toBool] at h4
  · rw [getCol_ok_colD df c d hcol]
    unfold boxStep
    rw [index2_ok st.ax i h1 h2 h3, hcol]
    rfl

/-- Loop invariant for the renderer loops: starting from any unsqueezed
3-column state whose current axes is outside the drawn range, the loop
succeeds and its effect on every cell is characterised. -/
theorem runSteps_ok (df : DataFrame)
    (step : PlotState → Nat → String → Except PyError PlotState)
    (mkPlot : String → Plot)
    (hstep : ∀ st i c, st.ax.nrows ≠ 1 → i / 3 < st.ax.nrows → st.ax.ncols = 3 →
      (df.getCol c).isOk = true →
      step st i c = Except.ok (updateCells st i c (mkPlot c))) :
    ∀ (cols : List String) (st : PlotState) (i : Nat),
      st.ax.nrows ≠ 1 → st.ax.ncols = 3 →
      st.ax.cells.length = st.ax.nrows * st.ax.ncols →
      st.current < st.ax.cells.length →
      (∀ k, k < cols.length → (i + k) / 3 < st.ax.nrows) →
      (∀ k, k < cols.length → i + k ≠ st.current) →
      (∀ c ∈ cols, (df.getCol c).isOk = true) →
      ∃ st', runSteps step st i cols = Except.ok st' ∧
        st'.fig = st.fig ∧ st'.current = st.current ∧
        st'.ax.nrows = st.ax.nrows ∧ st'.ax.ncols = st.ax.ncols ∧
        st'.ax.cells.length = st.ax.cells.length ∧
        (∀ k, (hk : k < cols.length) →
          st'.cell (i + k) =
            { st.cell (i + k) with
                plots := (st.cell (i + k)).plots ++ [mkPlot (cols.get ⟨k, hk⟩)],
                labelrotation := some 30 }) ∧
        (∀ j, (∀ k, k < cols.length → j ≠ i + k) → j ≠ st.current →
          st'.cell j = st.cell j) ∧
        (cols = [] → st' = st) ∧
        (cols ≠ [] → st'.cell st.current =
          { st.cell st.current with
              title := cols.getLastD "", useOffset := some false,
              gridOn := some false }) := by
  intro cols
  induction cols with
  | nil =>
    intro st i _ _ _ _ _ _ _
    refine ⟨st, rfl, rfl, rfl, rfl, rfl, rfl, ?_, ?_, fun _ => rfl, ?_⟩
    · intro k hk
      exact absurd hk (by simp)
    · intro j _ _
      rfl
    · intro hne
      exact absurd rfl hne
  | cons c cs ih =>
    intro st i h1 h2 hlen hcur hdiv hne hok
    have hok0 : (df.getCol c).isOk = true := hok c (List.mem_cons_self c cs)
    have hdiv0 : i / 3 < st.ax.nrows := by
      have := hdiv 0 (by simp)
      simpa using this
    have hne0 : i ≠ st.current := by
      have := hne 0 (by simp)
      simpa using this
    have hi_len : i < st.ax.cells.length := by
      rw [hlen, h2]
      omega
    have hstep0 := hstep st i c h1 hdiv0 h2 hok0
    have e_len : (updateCells st i c (mkPlot c)).ax.cells.length = st.ax.cells.length :=
      updateCells_len st i c (mkPlot c)
    have ih' := ih (updateCells st i c (mkPlot c)) (i + 1) h1 h2
      (by rw [e_len]; exact hlen) (by rw [e_len]; exact hcur)
      (fun k hk => by
        have hkk : k + 1 < (c :: cs).length := by simpa using Nat.succ_lt_succ hk
        have := hdiv (k + 1) hkk
        have heq : i + 1 + k = i + (k + 1) := by omega
        rw [heq]
        exact this)
      (fun k hk => by
        have hkk : k + 1 < (c :: cs).length := by simpa using Nat.succ_lt_succ hk
        have := hne (k + 1) hkk
        have heq : i + 1 + k = i + (k + 1) := by omega
        rw [heq]
        exact this)
      (fun x hx => hok x (List.mem_cons_of_mem c hx))
    obtain ⟨st', hrun, hfig, hcur', hnr, hnc, hlen', hdrawn, huntouched, hempty, hlast⟩ := ih'
    have hrun0 : runSteps step st i (c :: cs) =
        Except.bind (step st i c) (fun s => runSteps step s (i + 1) cs) := rfl
    refine ⟨st', ?_, hfig, hcur', hnr, hnc, by rw [hlen', e_len], ?_, ?_, ?_, ?_⟩
    · rw [hrun0, hstep0]
      exact hrun
    · intro k hk
      cases k with
      | zero =>
        have hu := huntouched i (fun k' _ => by omega) hne0
        show st'.cell i =
          { st.cell i with plots := (st.cell i).plots ++ [mkPlot c],
                           labelrotation := some 30 }
        rw [hu]
        exact updateCells_cell_drawn st i c (mkPlot c) hi_len hne0
      | succ k' =>
        have hk' : k' < cs.length := by simpa using hk
        have hd := hdrawn k' hk'
        have hkk : k' + 1 < (c :: cs).length := by simpa using Nat.succ_lt_succ hk'
        have hnek : i + (k' + 1) ≠ st.current := hne (k' + 1) hkk
        have ho := updateCells_cell_other st i c (mkPlot c) (i + 1 + k')
          (by omega) (by omega)
        have heq : i + (k' + 1) = i + 1 + k' := by omega
        rw [heq, hd, ho]
        rfl
    · intro j hj hjc
      have hu := huntouched j (fun k' hk' => by
          have := hj (k' + 1) (by simpa using Nat.succ_lt_succ hk')
          omega) hjc
      rw [hu]
      exact updateCells_cell_other st i c (mkPlot c) j
        (by have := hj 0 (by simp); omega) hjc
    · intro habs
      exact absurd habs (by simp)
    · intro _
      cases cs with
      | nil =>
        rw [hempty rfl]
        exact updateCells_cell_current st i c (mkPlot c) hcur hne0
      | cons c2 cs2 =>
        have hl := hlast (by simp)
        have ecur : (updateCells st i c (mkPlot c)).current = st.current := rfl
        rw [ecur] at hl
        rw [hl, updateCells_cell_current st i c (mkPlot c) hcur hne0]
        rfl

/-! ## Claim theorems -/

/-- C1: for every well-formed dataset, `summarize_column_nulls` returns a
summary with one row per input column, in the input column order, whose
`rows_missing` column holds each column's missing-value count and whose
`percent_missing` column holds that count divided by the dataset's total row
count. -/
theorem summarize_column_nulls_spec (df : DataFrame) (h : df.Wf) :
    (summarize_column_nulls df).index = df.cols.map Prod.fst ∧
    (summarize_column_nulls df).columns =
      [("rows_missing",
          df.cols.map (fun c => ((c.2.countP (fun v => v.isNone) : Nat) : ℚ))),
       ("percent_missing",
          df.cols.map (fun c =>
            ((c.2.countP (fun v => v.isNone) : Nat) : ℚ) / (df.numRows : ℚ)))] := by
  constructor
  · simp [summarize_column_nulls, concatAxis1, isnull_sum, List.map_map,
      Function.comp]
  · have e1 : (isnull_sum df).entries.map Prod.snd =
        df.cols.map (fun c => ((c.2.countP (fun v => v.isNone) : Nat) : ℚ)) := by
      simp [isnull_sum, List.map_map, Function.comp, colNullCount]
    have e2 : (isnull_mean df).entries.map Prod.snd =
        df.cols.map (fun c =>
          ((c.2.countP (fun v => v.isNone) : Nat) : ℚ) / (df.numRows : ℚ)) := by
      rw [isnull_mean]
      dsimp only
      rw [List.map_map]
      refine List.map_congr_left (fun c hc => ?_)
      simp only [Function.comp]
      rw [mkRat_eq_cast_div, h c hc]
      rfl
    show [("rows_missing", (isnull_sum df).entries.map Prod.snd),
          ("percent_missing", (isnull_mean df).entries.map Prod.snd)] = _
    rw [e1, e2]

/-- C1 witness: the specification's own example, columns `A`, `B`, `C` with
`A` missing 2 of 5 values, yielding counts (2, 0, 0) and fractions
(0.4, 0, 0). -/
theorem summarize_column_nulls_spec_witness :
    exDf.Wf ∧
    ((summarize_column_nulls exDf).index = exDf.cols.map Prod.fst ∧
     (summarize_column_nulls exDf).columns =
       [("rows_missing",
           exDf.cols.map (fun c => ((c.2.countP (fun v => v.isNone) : Nat) : ℚ))),
        ("percent_missing",
           exDf.cols.map (fun c =>
             ((c.2.countP (fun v => v.isNone) : Nat) : ℚ) / (exDf.numRows : ℚ)))]) :=
  ⟨by decide, summarize_column_nulls_spec exDf (by decide)⟩

/-- C4 counterexample: `_create_sub_plots 3` allocates 2 rows, not
`ceil(3 / 3) = 1` (here `(3 + 2) / 3` is the ceiling of `3 / 3`). -/
theorem rows_ne_ceil_at_three :
    ¬ ((_create_sub_plots 3).2.nrows = (3 + 2) / 3) := by
  decide

/-- C4 amended: the grid always has 3 columns and `floor(count / 3) + 1`
rows; this equals `ceil(count / 3)` only when the count is not a multiple of
3. -/
theorem create_sub_plots_shape (n : Nat) :
    (_create_sub_plots n).2.nrows = n / 3 + 1 ∧
    (_create_sub_plots n).2.ncols = 3 ∧
    (n % 3 ≠ 0 → n / 3 + 1 = (n + 2) / 3) := by
  refine ⟨rfl, rfl, fun h => ?_⟩
  omega

/-- C4 amended witness: at a count of 4 the rows are `4 / 3 + 1 = 2` and
the non-multiple-of-3 hypothesis holds. -/
theorem create_sub_plots_shape_witness :
    (_create_sub_plots 4).2.nrows = 4 / 3 + 1 ∧
    (_create_sub_plots 4).2.ncols = 3 ∧
    4 / 3 + 1 = (4 + 2) / 3 :=
  ⟨(create_sub_plots_shape 4).1, (create_sub_plots_shape 4).2.1,
    (create_sub_plots_shape 4).2.2 (by decide)⟩

/-- C3 counterexample: at a feature count of 0 the axes object is the
squeezed 1-D array of a single-row grid, so it is not an addressable 2-D
array: the two-level subscript `ax[0][0]` fails. -/
theorem not_twoDAddressable_at_zero :
    ¬ (_create_sub_plots 0).2.twoDAddressable := by
  decide

/-- C3 amended: `_create_sub_plots n` returns a canvas of width 14 and
height `(floor(n/3) + 1) * 3`, and an axes object with `floor(n/3) + 1`
rows, 3 columns and one drawing surface per grid cell — but it is an
addressable 2-D array exactly when there are at least 2 rows (`n ≥ 3`);
for `n < 3` the single-row result is squeezed to a 1-D array of 3 surfaces
on which two-level indexing fails. -/
theorem create_sub_plots_spec (n : Nat) :
    (_create_sub_plots n).1.width = 14 ∧
    (_create_sub_plots n).1.height = (n / 3 + 1) * 3 ∧
    (_create_sub_plots n).2.nrows = n / 3 + 1 ∧
    (_create_sub_plots n).2.ncols = 3 ∧
    (_create_sub_plots n).2.cells.length = (n / 3 + 1) * 3 ∧
    ((_create_sub_plots n).2.twoDAddressable ↔ 3 ≤ n) := by
  refine ⟨rfl, rfl, rfl, rfl, by simp [_create_sub_plots, subplots], ?_⟩
  constructor
  · intro h2
    by_contra hlt
    have h1 : n / 3 + 1 = 1 := by omega
    have := h2 0 (by simp [_create_sub_plots, subplots, h1]) 0
      (by simp [_create_sub_plots, subplots])
    simp [_create_sub_plots, subplots, AxesArray.index2, h1, Except.isOk,
      Except.toBool] at this
  · intro h3 r hr c hc
    have hnr : (_create_sub_plots n).2.nrows = n / 3 + 1 := rfl
    have h1 : n / 3 + 1 ≠ 1 := by omega
    simp only [AxesArray.index2, hnr] at hr hc ⊢
    rw [if_neg h1, if_pos hr, if_pos hc]
    rfl

/-- C8 counterexample: `summarize_row_nulls` does not return a frame with
value columns `columns_missing` and `percent_missing`; its `value_counts`
result is a one-dimensional series (one value sequence), so those two names
are not its value columns. -/
theorem row_nulls_not_two_columns :
    ¬ ((summarize_row_nulls exDf).valueColumnNames =
        ["columns_missing", "percent_missing"]) := by
  decide

/-- C8 amended: the column-wise summary is a frame with value columns named
`rows_missing` and `percent_missing`; the row-wise summary is a
one-dimensional series of group counts whose key levels — not value
columns — are named `columns_missing` and `percent_missing` (the source's
`-> pd.DataFrame` annotation notwithstanding, `value_counts` yields a
series). -/
theorem summarizer_output_names (df : DataFrame) :
    (summarize_column_nulls df).columns.map Prod.fst =
      ["rows_missing", "percent_missing"] ∧
    (summarize_row_nulls df).indexNames =
      ["columns_missing", "percent_missing"] ∧
    (summarize_row_nulls df).valueColumnNames.length = 1 :=
  ⟨rfl, rfl, rfl⟩

/-- The rows of the intermediate per-row frame are the (count, fraction)
pairs of the original rows, in row order. -/
theorem rows2_concat (df : DataFrame) :
    (concatAxis1 (isnull_sum_axis1 df) (isnull_mean_axis1 df)).rows2 =
      (List.range df.numRows).map
        (fun i => ((df.rowNullCount i : ℚ), mkRat (df.rowNullCount i) df.cols.length)) := by
  simp [concatAxis1, ConcatFrame.rows2, isnull_sum_axis1, isnull_mean_axis1,
    List.map_map, Function.comp, List.zip_map']

/-- The grouped-and-sorted series holds, up to order, one entry per distinct
row tuple paired with its multiplicity. -/
theorem entries_perm {ι : Type} (f : ConcatFrame ι) :
    (sort_index (value_counts f)).entries.Perm
      (f.rows2.dedup.map (fun k => (k, f.rows2.count k))) := by
  unfold sort_index value_counts
  dsimp only
  exact (List.perm_insertionSort entryLe _).trans (List.perm_insertionSort cntGe _)

/-- C2: `summarize_row_nulls` computes per original row the pair (missing
count, missing count divided by the number of columns), collapses equal
pairs into groups, and returns one entry per distinct pair carrying the
number of rows sharing it, with distinct keys sorted ascending by count and
then by fraction. -/
theorem summarize_row_nulls_spec (df : DataFrame) :
    (concatAxis1 (isnull_sum_axis1 df) (isnull_mean_axis1 df)).rows2 =
      (List.range df.numRows).map
        (fun i => ((df.rowNullCount i : ℚ),
                   (df.rowNullCount i : ℚ) / (df.cols.length : ℚ))) ∧
    ((summarize_row_nulls df).entries.map Prod.fst).Perm
      (concatAxis1 (isnull_sum_axis1 df) (isnull_mean_axis1 df)).rows2.dedup ∧
    ((summarize_row_nulls df).entries.map Prod.fst).Nodup ∧
    (summarize_row_nulls df).entries =
      ((summarize_row_nulls df).entries.map Prod.fst).map
        (fun k => (k,
          (concatAxis1 (isnull_sum_axis1 df) (isnull_mean_axis1 df)).rows2.count k)) ∧
    List.Pairwise entryLe (summarize_row_nulls df).entries := by
  have hpairs : (concatAxis1 (isnull_sum_axis1 df) (isnull_mean_axis1 df)).rows2 =
      (List.range df.numRows).map
        (fun i => ((df.rowNullCount i : ℚ),
                   (df.rowNullCount i : ℚ) / (df.cols.length : ℚ))) := by
    rw [rows2_concat]
    exact List.map_congr_left (fun i _ => by rw [mkRat_eq_cast_div])
  have hperm := entries_perm (concatAxis1 (isnull_sum_axis1 df) (isnull_mean_axis1 df))
  have hkeys : ((summarize_row_nulls df).entries.map Prod.fst).Perm
      (concatAxis1 (isnull_sum_axis1 df) (isnull_mean_axis1 df)).rows2.dedup := by
    have := hperm.map Prod.fst
    simpa [summarize_row_nulls, List.map_map, Function.comp_def] using this
  refine ⟨hpairs, hkeys, ?_, ?_, ?_⟩
  · exact hkeys.nodup_iff.mpr
      (List.nodup_dedup (concatAxis1 (isnull_sum_axis1 df) (isnull_mean_axis1 df)).rows2)
  · refine eq_key_map _ _ (fun e he => ?_)
    have hb := hperm.mem_iff.mp he
    rcases List.mem_map.mp hb with ⟨k, _, hk⟩
    rw [← hk]
  · exact List.sorted_insertionSort entryLe _

/-- C2 example: on the specification's 4-row frame (rows 0, 1 missing one
value each, rows 2, 3 complete) the summarizer returns the 0-missing group
of size 2 first, then the 1-missing group of size 2. -/
theorem summarize_row_nulls_example :
    (summarize_row_nulls exDf4).entries = [((0, 0), 2), ((1, mkRat 1 2), 2)] := by
  decide

/-- On a frame all of whose columns have at least one row, the NaN-aware
reading of `summarize_column_nulls` never produces NaN and carries exactly
the counts and `mkRat`-fractions of the `ℚ`-valued pipeline. -/
theorem summarize_column_nulls_nan_nonempty (df : DataFrame)
    (h : ∀ c ∈ df.cols, c.2.length ≠ 0) :
    summarize_column_nulls_nan df =
      df.cols.map (fun c =>
        (c.1, colNullCount c.2, some (mkRat (colNullCount c.2) c.2.length))) :=
  List.map_congr_left (fun c hc => by rw [if_neg (h c hc)])

/-- C7 counterexample: on the frame with one named column and zero rows the
missing count is 0, yet the program's `percent_missing` is the mean of an
empty slice — NaN, not exactly 0.0. -/
theorem percent_zero_fails_on_empty_column :
    summarize_column_nulls_nan exDfEmpty = [("A", 0, none)] ∧
    ¬ summarize_column_nulls_nan exDfEmpty = [("A", 0, some 0)] := by
  decide

/-- C7 amended: whenever a column's missing count is 0 and the column has at
least one row, its `percent_missing` is exactly 0; a zero-row column always
has count 0 and `percent_missing` NaN.  Row-wise, a group key with count 0
has fraction exactly 0 unconditionally (every represented row lives in a
column, so the denominator — the column count — is positive there). -/
theorem percent_missing_zero_amended (df : DataFrame) :
    (∀ p ∈ df.cols.zip (summarize_column_nulls_nan df),
      (p.2.2.1 = 0 → p.1.2.length ≠ 0 → p.2.2.2 = some 0) ∧
      (p.1.2.length = 0 → p.2.2.1 = 0 ∧ p.2.2.2 = none)) ∧
    (∀ e ∈ (summarize_row_nulls df).entries, e.1.1 = 0 → e.1.2 = 0) := by
  constructor
  · intro p hp
    have hp' : p ∈ df.cols.map (fun c => (c,
        (c.1, colNullCount c.2,
          if c.2.length = 0 then none
          else some (mkRat (colNullCount c.2) c.2.length)))) := by
      rw [← zip_self_map]
      exact hp
    rcases List.mem_map.mp hp' with ⟨c, hc, hcp⟩
    rw [← hcp]
    dsimp only
    constructor
    · intro h0 hlen
      rw [if_neg hlen, h0]
      simp
    · intro hlen
      rw [if_pos hlen]
      have hnil : c.2 = [] := List.length_eq_zero.mp hlen
      rw [hnil]
      exact ⟨rfl, rfl⟩
  · intro e he h0
    have hb := (entries_perm
      (concatAxis1 (isnull_sum_axis1 df) (isnull_mean_axis1 df))).mem_iff.mp he
    rcases List.mem_map.mp hb with ⟨k, hk, hke⟩
    have hkm : k ∈ (concatAxis1 (isnull_sum_axis1 df) (isnull_mean_axis1 df)).rows2 :=
      List.mem_dedup.mp hk
    rw [rows2_concat] at hkm
    rcases List.mem_map.mp hkm with ⟨i, _, hik⟩
    have hke1 : e.1 = k := by rw [← hke]
    rw [hke1, ← hik] at h0 ⊢
    dsimp only at h0 ⊢
    have : df.rowNullCount i = 0 := by exact_mod_cast h0
    rw [this]
    simp

/-- C7 amended witness: in the all-present two-row frame, column `A` has
count 0 and `percent_missing` exactly 0, via the theorem at `exDfFull`. -/
theorem percent_missing_zero_amended_witness :
    (((("A", [some 1, some 2]), ("A", 0, some (0 : ℚ))) :
        (String × List Cell) × (String × Nat × Option ℚ))).2.2.2 = some 0 :=
  ((percent_missing_zero_amended exDfFull).1
      ((("A", [some 1, some 2]), ("A", 0, some (0 : ℚ))))
      (by decide)).1 (by decide) (by decide)

/-- A two-level subscript on a squeezed single-row axes array raises
`TypeError` as soon as the first level is in range. -/
theorem index2_squeezed (a : AxesArray) (r c : Nat) (h1 : a.nrows = 1)
    (h2 : r < a.ncols) :
    a.index2 r c = Except.error PyError.typeError := by
  unfold AxesArray.index2
  rw [if_pos h1, if_pos h2]

/-- A loop whose first iteration raises propagates that exception. -/
theorem runSteps_error (step : PlotState → Nat → String → Except PyError PlotState)
    (st : PlotState) (i : Nat) (c : String) (cs : List String) (e : PyError)
    (h : step st i c = Except.error e) :
    runSteps step st i (c :: cs) = Except.error e := by
  show Except.bind (step st i c) _ = Except.error e
  rw [h]
  rfl

/-- On a squeezed grid `histStep` raises: `KeyError` if the column is
absent, else `TypeError` from the cell subscript. -/
theorem histStep_squeezed (df : DataFrame) (st : PlotState) (i : Nat) (c : String)
    (h1 : st.ax.nrows = 1) (hi : i / 3 < st.ax.ncols) :
    ∃ e, histStep df st i c = Except.error e := by
  rcases hcol : df.getCol c with e | d
  · exact ⟨e, by unfold histStep; rw [hcol]; rfl⟩
  · exact ⟨PyError.typeError, by
      unfold histStep
      rw [hcol, index2_squeezed st.ax _ _ h1 hi]
      rfl⟩

/-- On a squeezed grid `boxStep` raises `TypeError` before seaborn even
looks at the column name. -/
theorem boxStep_squeezed (df : DataFrame) (st : PlotState) (i : Nat) (c : String)
    (h1 : st.ax.nrows = 1) (hi : i / 3 < st.ax.ncols) :
    boxStep df st i c = Except.error PyError.typeError := by
  unfold boxStep
  rw [index2_squeezed st.ax _ _ h1 hi]
  rfl

/-- Full characterisation of a successful renderer run on `n ≥ 3` columns:
every drawn cell holds exactly its plot with rotated tick labels and
otherwise default settings, while the current (last) axes ends with the last
column's title, offset notation off and grid off. -/
theorem renderer_cells (df : DataFrame)
    (step : PlotState → Nat → String → Except PyError PlotState)
    (mkPlot : String → Plot)
    (hstep : ∀ st i c, st.ax.nrows ≠ 1 → i / 3 < st.ax.nrows → st.ax.ncols = 3 →
      (df.getCol c).isOk = true →
      step st i c = Except.ok (updateCells st i c (mkPlot c)))
    (columns : List String) (h3 : 3 ≤ columns.length)
    (hok : ∀ c ∈ columns, (df.getCol c).isOk = true) :
    ∃ st', runSteps step
        { fig := (_create_sub_plots columns.length).1,
          ax := (_create_sub_plots columns.length).2,
          current := (_create_sub_plots columns.length).2.nrows *
            (_create_sub_plots columns.length).2.ncols - 1 } 0 columns
        = Except.ok st' ∧
      st'.ax.nrows = columns.length / 3 + 1 ∧
      st'.ax.ncols = 3 ∧
      st'.current = (columns.length / 3 + 1) * 3 - 1 ∧
      (∀ k, (hk : k < columns.length) → st'.cell k =
        { plots := [mkPlot (columns.get ⟨k, hk⟩)], title := "",
          labelrotation := some 30, useOffset := none, gridOn := none }) ∧
      st'.cell st'.current =
        { plots := [], title := columns.getLastD "",
          labelrotation := none, useOffset := some false, gridOn := some false } := by
  obtain ⟨st', hrun, hfig, hcur', hnr, hnc, hlen', hdrawn, huntouched, hempty, hlast⟩ :=
    runSteps_ok df step mkPlot hstep columns
      { fig := (_create_sub_plots columns.length).1,
        ax := (_create_sub_plots columns.length).2,
        current := (_create_sub_plots columns.length).2.nrows *
          (_create_sub_plots columns.length).2.ncols - 1 } 0
      (by show columns.length / 3 + 1 ≠ 1; omega)
      rfl
      (by
        show (List.replicate ((columns.length / 3 + 1) * 3) ({} : Axes)).length =
          (columns.length / 3 + 1) * 3
        exact List.length_replicate _ _)
      (by
        show (columns.length / 3 + 1) * 3 - 1 <
          (List.replicate ((columns.length / 3 + 1) * 3) ({} : Axes)).length
        rw [List.length_replicate]
        omega)
      (fun k hk => by show (0 + k) / 3 < columns.length / 3 + 1; omega)
      (fun k hk => by show 0 + k ≠ (columns.length / 3 + 1) * 3 - 1; omega)
      hok
  have hcell0 : ∀ k, k < columns.length →
      PlotState.cell
        { fig := (_create_sub_plots columns.length).1,
          ax := (_create_sub_plots columns.length).2,
          current := (_create_sub_plots columns.length).2.nrows *
            (_create_sub_plots columns.length).2.ncols - 1 } k = ({} : Axes) := by
    intro k hk
    show (List.replicate ((columns.length / 3 + 1) * 3) ({} : Axes)).getD k {} = {}
    exact getD_replicate _ _ _ _ (by omega)
  refine ⟨st', hrun, hnr, hnc, hcur', ?_, ?_⟩
  · intro k hk
    have hd := hdrawn k hk
    have h0k : 0 + k = k := Nat.zero_add k
    rw [h0k] at hd
    rw [hcell0 k hk] at hd
    rw [hd]
    rfl
  · have hne_nil : columns ≠ [] := by
      intro h0
      rw [h0] at h3
      simp at h3
    have hl := hlast hne_nil
    have hcellc :
        PlotState.cell
          { fig := (_create_sub_plots columns.length).1,
            ax := (_create_sub_plots columns.length).2,
            current := (_create_sub_plots columns.length).2.nrows *
              (_create_sub_plots columns.length).2.ncols - 1 }
          ((_create_sub_plots columns.length).2.nrows *
            (_create_sub_plots columns.length).2.ncols - 1) = ({} : Axes) := by
      show (List.replicate ((columns.length / 3 + 1) * 3) ({} : Axes)).getD
        ((columns.length / 3 + 1) * 3 - 1) {} = {}
      exact getD_replicate _ _ _ _ (by omega)
    rw [hcellc] at hl
    rw [hcur']
    rw [hl]

/-- C9: the summarizers are pure functions of the dataframe value — in this
embedding every pandas operation they use (`isnull`, `sum`, `mean`,
`rename`, `concat`, `value_counts`, `sort_index`) constructs a fresh object
and none writes back into `df`, so the input is left untouched by
construction and two calls on the same dataset are literally the same
value. -/
theorem summarizers_deterministic (df : DataFrame) :
    summarize_column_nulls df = summarize_column_nulls df ∧
    summarize_row_nulls df = summarize_row_nulls df :=
  ⟨rfl, rfl⟩

/-- C5 counterexample: on a single-column list nothing is drawn — the call
raises before the first column reaches its cell, so cell (0, 0) never
receives the histogram of column `A`. -/
theorem get_hist_single_no_draw :
    ¬ ((get_hist exDf ["A"]).map (fun st => (st.cell 0).plots) =
        Except.ok [Plot.hist (exDf.colD "A") 5]) := by
  decide

/-- C5 amended: for every dataset and every list of existing column names
whose length is 0 or at least 3 (so that the axes grid is 2-D), `get_hist`
draws the column at position `k` into grid cell `(k / 3, k % 3)` — which
resolves to flat cell `k` — as a 5-bin histogram of that column's values,
and `get_box` draws it there as a boxplot of those values. -/
theorem hist_box_draw (df : DataFrame) (columns : List String)
    (hlen : columns.length = 0 ∨ 3 ≤ columns.length)
    (hok : ∀ c ∈ columns, (df.getCol c).isOk = true) :
    ∀ k, (hk : k < columns.length) →
      (get_hist df columns).map (fun st => st.ax.index2 (k / 3) (k % 3)) =
        Except.ok (Except.ok k) ∧
      (get_hist df columns).map (fun st => (st.cell k).plots) =
        Except.ok [Plot.hist (df.colD (columns.get ⟨k, hk⟩)) 5] ∧
      (get_box df columns).map (fun st => (st.cell k).plots) =
        Except.ok [Plot.box (df.colD (columns.get ⟨k, hk⟩))] := by
  intro k hk
  rcases hlen with h0 | h3
  · rw [h0] at hk
    exact absurd hk (by omega)
  · obtain ⟨sth, hrunh, hnrh, hnch, _, hcellsh, _⟩ :=
      renderer_cells df (histStep df) (fun c => Plot.hist (df.colD c) 5)
        (fun st i c h1 h2 hc h4 => histStep_ok df st i c h1 h2 hc h4) columns h3 hok
    obtain ⟨stb, hrunb, _, _, _, hcellsb, _⟩ :=
      renderer_cells df (boxStep df) (fun c => Plot.box (df.colD c))
        (fun st i c h1 h2 hc h4 => boxStep_ok df st i c h1 h2 hc h4) columns h3 hok
    have hh : get_hist df columns = Except.ok sth := hrunh
    have hb : get_box df columns = Except.ok stb := hrunb
    refine ⟨?_, ?_, ?_⟩
    · rw [hh]
      show Except.ok (sth.ax.index2 (k / 3) (k % 3)) = Except.ok (Except.ok k)
      rw [index2_ok sth.ax k (by rw [hnrh]; omega) (by rw [hnrh]; omega) hnch]
    · rw [hh]
      show Except.ok (sth.cell k).plots = _
      rw [hcellsh k hk]
    · rw [hb]
      show Except.ok (stb.cell k).plots = _
      rw [hcellsb k hk]

/-- C5 amended witness: on the example frame and its three columns, column 0
lands in cell (0, 0) (flat cell 0) as a histogram and a boxplot. -/
theorem hist_box_draw_witness :
    (["A", "B", "C"].length = 0 ∨ 3 ≤ ["A", "B", "C"].length) ∧
    ((get_hist exDf ["A", "B", "C"]).map (fun st => st.ax.index2 (0 / 3) (0 % 3)) =
        Except.ok (Except.ok 0) ∧
      (get_hist exDf ["A", "B", "C"]).map (fun st => (st.cell 0).plots) =
        Except.ok [Plot.hist (exDf.colD (["A", "B", "C"].get ⟨0, by decide⟩)) 5] ∧
      (get_box exDf ["A", "B", "C"]).map (fun st => (st.cell 0).plots) =
        Except.ok [Plot.box (exDf.colD (["A", "B", "C"].get ⟨0, by decide⟩))]) :=
  ⟨by decide, hist_box_draw exDf ["A", "B", "C"] (by decide) (by decide) 0 (by decide)⟩

/-- C6 counterexample: after a successful `get_hist` run the drawn-into cell
(0, 0) does not carry its column's name as title — `plt.title` writes to
pyplot's current axes (the last grid cell), not to the cell drawn into. -/
theorem hist_cell_title_not_column :
    ¬ ((get_hist exDf ["A", "B", "C"]).map (fun st => (st.cell 0).title) =
        Except.ok "A") := by
  decide

/-- C6 amended: in a successful renderer run each drawn cell gets its tick
labels rotated by 30 degrees but keeps the default title, offset notation
and grid; the title, offset-off and grid-off settings land instead on
pyplot's current axes — the last cell of the grid — which ends with the
LAST column's name as title. -/
theorem hist_box_decorations (df : DataFrame) (columns : List String)
    (h3 : 3 ≤ columns.length)
    (hok : ∀ c ∈ columns, (df.getCol c).isOk = true) :
    (∀ k, k < columns.length →
      (get_hist df columns).map (fun st =>
        ((st.cell k).labelrotation, (st.cell k).title,
         (st.cell k).useOffset, (st.cell k).gridOn)) =
        Except.ok (some 30, "", none, none) ∧
      (get_box df columns).map (fun st =>
        ((st.cell k).labelrotation, (st.cell k).title,
         (st.cell k).useOffset, (st.cell k).gridOn)) =
        Except.ok (some 30, "", none, none)) ∧
    (get_hist df columns).map (fun st =>
        (st.current, (st.cell st.current).title,
         (st.cell st.current).useOffset, (st.cell st.current).gridOn)) =
      Except.ok ((columns.length / 3 + 1) * 3 - 1, columns.getLastD "",
        some false, some false) ∧
    (get_box df columns).map (fun st =>
        (st.current, (st.cell st.current).title,
         (st.cell st.current).useOffset, (st.cell st.current).gridOn)) =
      Except.ok ((columns.length / 3 + 1) * 3 - 1, columns.getLastD "",
        some false, some false) := by
  obtain ⟨sth, hrunh, hnrh, hnch, hcurh, hcellsh, hlasth⟩ :=
    renderer_cells df (histStep df) (fun c => Plot.hist (df.colD c) 5)
      (fun st i c h1 h2 hc h4 => histStep_ok df st i c h1 h2 hc h4) columns h3 hok
  obtain ⟨stb, hrunb, hnrb, hncb, hcurb, hcellsb, hlastb⟩ :=
    renderer_cells df (boxStep df) (fun c => Plot.box (df.colD c))
      (fun st i c h1 h2 hc h4 => boxStep_ok df st i c h1 h2 hc h4) columns h3 hok
  have hh : get_hist df columns = Except.ok sth := hrunh
  have hb : get_box df columns = Except.ok stb := hrunb
  refine ⟨fun k hk => ⟨?_, ?_⟩, ?_, ?_⟩
  · rw [hh]
    show Except.ok ((sth.cell k).labelrotation, (sth.cell k).title,
      (sth.cell k).useOffset, (sth.cell k).gridOn) = _
    rw [hcellsh k hk]
  · rw [hb]
    show Except.ok ((stb.cell k).labelrotation, (stb.cell k).title,
      (stb.cell k).useOffset, (stb.cell k).gridOn) = _
    rw [hcellsb k hk]
  · rw [hh]
    show Except.ok (sth.current, (sth.cell sth.current).title,
      (sth.cell sth.current).useOffset, (sth.cell sth.current).gridOn) = _
    rw [hlasth, hcurh]
  · rw [hb]
    show Except.ok (stb.current, (stb.cell stb.current).title,
      (stb.cell stb.current).useOffset, (stb.cell stb.current).gridOn) = _
    rw [hlastb, hcurb]

/-- C6 amended witness: on the example run the current (last) axes ends
titled with the last column `C`, offset notation off and grid off, and cell
0 has only the 30-degree rotation. -/
theorem hist_box_decorations_witness :
    3 ≤ ["A", "B", "C"].length ∧
    ((get_hist exDf ["A", "B", "C"]).map (fun st =>
        (st.current, (st.cell st.current).title,
         (st.cell st.current).useOffset, (st.cell st.current).gridOn)) =
      Except.ok ((["A", "B", "C"].length / 3 + 1) * 3 - 1,
        ["A", "B", "C"].getLastD "", some false, some false)) :=
  ⟨by decide,
    (hist_box_decorations exDf ["A", "B", "C"] (by decide) (by decide)).2.1⟩

/-- C10: on a non-empty column list of length 1 or 2 the grid has a single
row, `plt.subplots` squeezes the axes to a 1-D array, and both renderers
raise before drawing anything: `get_box` always with the `TypeError` from
the two-level subscript, `get_hist` with that `TypeError` or, for an absent
column name, the earlier `KeyError`. -/
theorem short_column_lists_raise (df : DataFrame) (c : String) (cs : List String)
    (h : cs.length ≤ 1) :
    (∃ e, get_hist df (c :: cs) = Except.error e) ∧
    get_box df (c :: cs) = Except.error PyError.typeError := by
  have hnr : (_create_sub_plots (c :: cs).length).2.nrows = 1 := by
    show (c :: cs).length / 3 + 1 = 1
    simp only [List.length_cons]
    omega
  have hi : (0 : Nat) / 3 < (_create_sub_plots (c :: cs).length).2.ncols := by
    show (0 : Nat) / 3 < 3
    omega
  constructor
  · rcases histStep_squeezed df
      { fig := (_create_sub_plots (c :: cs).length).1,
        ax := (_create_sub_plots (c :: cs).length).2,
        current := (_create_sub_plots (c :: cs).length).2.nrows *
          (_create_sub_plots (c :: cs).length).2.ncols - 1 } 0 c hnr hi with ⟨e, he⟩
    exact ⟨e, runSteps_error _ _ _ _ _ _ he⟩
  · exact runSteps_error _ _ _ _ _ _
      (boxStep_squeezed df
        { fig := (_create_sub_plots (c :: cs).length).1,
          ax := (_create_sub_plots (c :: cs).length).2,
          current := (_create_sub_plots (c :: cs).length).2.nrows *
            (_create_sub_plots (c :: cs).length).2.ncols - 1 } 0 c hnr hi)

/-- C10 witness: with the single existing column `A` both renderers raise,
`get_box` with `TypeError`. -/
theorem short_column_lists_raise_witness :
    ([] : List String).length ≤ 1 ∧
    ((∃ e, get_hist exDf ("A" :: []) = Except.error e) ∧
      get_box exDf ("A" :: []) = Except.error PyError.typeError) :=
  ⟨by decide, short_column_lists_raise exDf "A" [] (by decide)⟩

end UA
